import Mathlib

/-!
Verification of the render orchestration and session-bridging subsystem of
`requests_html2.py`: cookie conversion, browser lifecycle, the render retry
loop, and the next-page search.  Python values and exception behaviour are
embedded shallowly: attribute reads that may raise become `Option`-valued
fields, raised exceptions become `Except` results, and Python truthiness is
made explicit.
-/

namespace RequestsHtml2

/-- Module-level constant `DEFAULT_URL = "https://example.org/"`. -/
def DEFAULT_URL : String := "https://example.org/"

/-- Module-level constant `DEFAULT_USER_AGENT` (a Safari-style agent string). -/
def DEFAULT_USER_AGENT : String :=
  "Mozilla/5.0 (Macintosh; Intel Mac OS X 10_12_6) AppleWebKit/603.3.8 (KHTML, like Gecko) Version/10.1.2 Safari/603.3.8"

/-- A Python exception, as far as this subsystem distinguishes them. -/
inductive PyError where
  | typeError (message : String)
  | keyError (key : String)
  | runtimeError (message : String)
  deriving DecidableEq, Repr

/-- A Python scalar value as it appears on a cookie attribute: a string, an
integer, a boolean, or `None`. -/
inductive PyVal where
  | str (s : String)
  | int (n : Int)
  | bool (b : Bool)
  | none
  deriving DecidableEq, Repr

/-- Python truthiness of a `PyVal`: `""`, `0`, `False` and `None` are falsy. -/
def PyVal.truthy : PyVal → Bool
  | .str s => !s.isEmpty
  | .int n => n != 0
  | .bool b => b
  | .none => false

/-- A Python dict with string keys, embedded as its entry list in insertion
order (Python dicts preserve insertion order). -/
abbrev PyDict := List (String × PyVal)

/-- The empty dict. -/
def PyDict.empty : PyDict := []

/-- Python truthiness of a dict: truthy iff non-empty. -/
def PyDict.truthy (d : PyDict) : Bool := !List.isEmpty d

/-- Dict item lookup `d[k]`, `None`-free variant: the value stored at `k`. -/
def PyDict.lookup (d : PyDict) (k : String) : Option PyVal :=
  (List.find? (fun kv => kv.1 = k) d).map Prod.snd

/-- Dict item assignment `d[k] = v`: replaces the entry in place when the key
is present, otherwise appends it. -/
def PyDict.set (d : PyDict) (k : String) (v : PyVal) : PyDict :=
  if List.any d (fun kv => kv.1 = k) then
    List.map (fun kv => if kv.1 = k then (k, v) else kv) d
  else
    d ++ [(k, v)]

/-- A cookie object as seen through the attribute reads in
`HTML._convert_cookiejar_to_render.__convert`.  Each field is the result of
evaluating `cookiejar.<key>`: `Option.none` models the read raising (the
attribute does not exist on the object), `some v` a successful read. -/
structure PyCookie where
  name : Option PyVal
  value : Option PyVal
  url : Option PyVal
  domain : Option PyVal
  path : Option PyVal
  sameSite : Option PyVal
  expires : Option PyVal
  httpOnly : Option PyVal
  secure : Option PyVal
  deriving DecidableEq, Repr

/-- Field read on a `PyCookie` by the key strings used in the source. -/
def PyCookie.read (c : PyCookie) : String → Option PyVal
  | "name" => c.name
  | "value" => c.value
  | "url" => c.url
  | "domain" => c.domain
  | "path" => c.path
  | "sameSite" => c.sameSite
  | "expires" => c.expires
  | "httpOnly" => c.httpOnly
  | "secure" => c.secure
  | _ => Option.none

/-- The key list of `_convert_cookiejar_to_render`, in source order. -/
def cookieKeys : List String :=
  ["name", "value", "url", "domain", "path", "sameSite", "expires", "httpOnly", "secure"]

/-- `__convert(cookiejar, key)`: evaluates `cookiejar.<key>`; on any exception
or on a falsy value the result is `""` (which makes the enclosing
`dict.update` a no-op), otherwise the one-entry dict `{key: v}`.  Embedded as
the optional entry the enclosing update receives. -/
def convertField (c : PyCookie) (key : String) : Option (String × PyVal) :=
  match c.read key with
  | Option.none => Option.none
  | some v => if v.truthy then some (key, v) else Option.none

/-- `cookie_render.update(__convert(...))`: apply an optional entry. -/
def PyDict.update (d : PyDict) : Option (String × PyVal) → PyDict
  | Option.none => d
  | some (k, v) => d.set k v

/-- `HTML._convert_cookiejar_to_render(session_cookiejar)`: starting from the
empty dict, update with `__convert` of each key in source order. -/
def convert_cookiejar_to_render (c : PyCookie) : PyDict :=
  List.foldl (fun d key => d.update (convertField c key)) PyDict.empty cookieKeys

/-- `HTML._convert_cookiesjar_to_render(self)` for a session whose cookie
store is a `CookieJar` holding `jar`: convert each cookie, then assign
`convert["url"] = self.url`, and append the record.  `url` is the document's
URL.  Total by construction: every per-field failure is absorbed inside
`__convert`, so no cookie shape makes the conversion raise. -/
def convert_cookiesjar_to_render (url : String) (jar : List PyCookie) : List PyDict :=
  jar.map (fun c => (convert_cookiejar_to_render c).set "url" (PyVal.str url))

/-! ## The render engine and retry loop (`HTML._async_render`, `HTML.render`) -/

/-- Outcome of one `_async_render` attempt, as determined by the browser
collaborator: either the navigation (`page.goto`) times out, or the page
renders and `page.content()` returns `content` with `page.evaluate` script
result `result` (`None` when no script was supplied). -/
inductive AttemptOutcome where
  | timeout
  | success (content : String) (result : Option PyVal)
  deriving DecidableEq, Repr

/-- Where one attempt navigates: `page.goto(url, ...)` over the network when
`reload` is true, or a `data:text/html,...` URL holding the in-memory HTML
when it is false. -/
inductive NavTarget where
  | network (url : String)
  | dataUrl (html : String)
  deriving DecidableEq, Repr

/-- Observable trace and result of one `_async_render` call.  `outcome` is
`some (content, result, page)` for the tuple the coroutine returns, and
`Option.none` for the `TimeoutError` branch, which returns the bare `None`
(whose unpacking in the caller raises `TypeError`).  `pagesClosed` counts
`page.close()` calls; `cookiesSet` the dicts passed to `page.setCookie`. -/
structure AttemptTrace where
  cookiesSet : List PyDict
  nav : NavTarget
  pagesClosed : Nat
  outcome : Option (String × Option PyVal × Option Unit)

/-- `HTML._async_render`: open a page, set each truthy cookie dict, navigate
(to the live URL when `reload`, else to a data URL holding the in-memory
HTML), and either time out — closing the page and returning `None` — or
produce content and the script result, closing the page unless `keep_page`. -/
def async_render (url html_ : String) (reload keep_page : Bool)
    (cookies : List PyDict) (o : AttemptOutcome) : AttemptTrace :=
  let nav := if reload then NavTarget.network url else NavTarget.dataUrl html_
  let cset := cookies.filter (fun c => c.truthy)
  match o with
  | .timeout => { cookiesSet := cset, nav := nav, pagesClosed := 1, outcome := Option.none }
  | .success content result =>
      if keep_page then
        { cookiesSet := cset, nav := nav, pagesClosed := 0,
          outcome := some (content, result, some ()) }
      else
        { cookiesSet := cset, nav := nav, pagesClosed := 1,
          outcome := some (content, result, Option.none) }

/-- Python truthiness of the `content` local of `HTML.render`: `None` before
any successful attempt, otherwise the last captured page content (the empty
string is falsy, so an empty capture does not stop the loop). -/
def contentTruthy : Option String → Bool
  | Option.none => false
  | some s => !s.isEmpty

/-- State of the `for i in range(retries)` loop in `HTML.render`: the local
variables `content`, `result`, `page`, plus the observable trace (attempt
count, `page.close()` count, navigation targets, cookies set per attempt). -/
structure LoopState where
  content : Option String
  result : Option PyVal
  page : Option Unit
  attempts : Nat
  closed : Nat
  navs : List NavTarget
  cookieTraces : List (List PyDict)

/-- Loop state before the first iteration (`content = None`; `result` and
`page` unassigned, readable only after a successful attempt). -/
def LoopState.init : LoopState :=
  { content := Option.none, result := Option.none, page := Option.none,
    attempts := 0, closed := 0, navs := [], cookieTraces := [] }

/-- Fold one `_async_render` call into the loop state: the trace accumulates;
the locals are reassigned only when the coroutine returned a tuple (on the
`None` return the unpacking raises `TypeError`, which the loop catches with
`pass`, leaving all three locals untouched). -/
def LoopState.step (st : LoopState) (tr : AttemptTrace) : LoopState :=
  let base : LoopState :=
    { st with
      attempts := st.attempts + 1, closed := st.closed + tr.pagesClosed,
      navs := st.navs ++ [tr.nav], cookieTraces := st.cookieTraces ++ [tr.cookiesSet] }
  match tr.outcome with
  | Option.none => base
  | some (c, r, p) => { base with content := some c, result := r, page := p }

/-- The `for i in range(retries)` loop of `HTML.render`: at each iteration,
if `content` is truthy, `break`; else run one `_async_render` attempt (the
collaborator behaviour of attempt `i` is `outcomes i`).  The first `Nat` is
the remaining iteration budget, the second the current index `i`. -/
def render_loop (url html_ : String) (reload keep_page : Bool) (cookies : List PyDict)
    (outcomes : Nat → AttemptOutcome) : Nat → Nat → LoopState → LoopState
  | 0, _, st => st
  | n + 1, i, st =>
      if contentTruthy st.content then st
      else
        render_loop url html_ reload keep_page cookies outcomes n (i + 1)
          (st.step (async_render url html_ reload keep_page cookies (outcomes i)))

/-- The document state `HTML.render` reads and replaces: the source URL, the
backing HTML, the owning session (identified by an allocation id), and the
retained page handle. -/
structure Doc where
  url : String
  html : String
  session : Nat
  page : Option Unit
  deriving DecidableEq, Repr

/-- The `MaxRetries` exception (`raise MaxRetries("Unable to render the
page. Try increasing timeout")`). -/
inductive RenderError where
  | maxRetries (message : String)
  deriving DecidableEq, Repr

/-- Result of `HTML.render`: the outcome (the updated document paired with
the script result, or the raised `MaxRetries`) together with the final loop
state for trace inspection. -/
structure RenderResult where
  outcome : Except RenderError (Doc × Option PyVal)
  trace : LoopState

/-- `HTML.render` (and, with identical control flow, `HTML.arender`):
force `reload = False` when the document URL is the placeholder default;
derive cookies from the session jar when `send_cookies_session`; loop up to
`retries` attempts; on no truthy content raise `MaxRetries`; otherwise build
a fresh `HTML` from the content (constructed without a session argument, so
it allocates a new default session, `freshSession`), copy its `__dict__`
over this document wholesale, set `self.page`, and return the script
result. -/
def render (doc : Doc) (retries : Nat) (reload keep_page : Bool)
    (cookies : List PyDict) (send_cookies_session : Bool) (jar : List PyCookie)
    (outcomes : Nat → AttemptOutcome) (freshSession : Nat) : RenderResult :=
  let reload2 := if doc.url = DEFAULT_URL then false else reload
  let cookies2 := if send_cookies_session then convert_cookiesjar_to_render doc.url jar else cookies
  let st := render_loop doc.url doc.html reload2 keep_page cookies2 outcomes retries 0 LoopState.init
  { outcome :=
      if contentTruthy st.content then
        Except.ok
          ({ url := doc.url, html := st.content.getD "", session := freshSession,
             page := st.page }, st.result)
      else
        Except.error
          (RenderError.maxRetries "Unable to render the page. Try increasing timeout"),
    trace := st }

/-- `HTML.arender`: the cooperative variant; its loop, failure and
document-replacement logic are line-for-line those of `render`, with each
blocking call replaced by an awaited one. -/
def arender (doc : Doc) (retries : Nat) (reload keep_page : Bool)
    (cookies : List PyDict) (send_cookies_session : Bool) (jar : List PyCookie)
    (outcomes : Nat → AttemptOutcome) (freshSession : Nat) : RenderResult :=
  let reload2 := if doc.url = DEFAULT_URL then false else reload
  let cookies2 := if send_cookies_session then convert_cookiesjar_to_render doc.url jar else cookies
  let st := render_loop doc.url doc.html reload2 keep_page cookies2 outcomes retries 0 LoopState.init
  { outcome :=
      if contentTruthy st.content then
        Except.ok
          ({ url := doc.url, html := st.content.getD "", session := freshSession,
             page := st.page }, st.result)
      else
        Except.error
          (RenderError.maxRetries "Unable to render the page. Try increasing timeout"),
    trace := st }

/-! ## Browser lifecycle (`HTMLSession.browser`, `HTMLSession.close`) -/

/-- A launched browser process: its launch ordinal and whether
`browser.close()` has been called on it. -/
structure Browser where
  id : Nat
  closed : Bool
  deriving DecidableEq, Repr

/-- The browser-related state of an `HTMLSession`: the memoized `_browser`
attribute (`Option.none` models `hasattr(self, "_browser")` being false) and
the number of `pyppeteer.launch` calls performed so far. -/
structure SessionState where
  browser : Option Browser
  launches : Nat
  deriving DecidableEq, Repr

/-- The `HTMLSession.browser` property: when `_browser` exists, return it
unchanged; otherwise, if the current thread's event loop is already running,
raise `RuntimeError` immediately (no launch); else launch a new browser and
memoize it. -/
def getBrowser (loopRunning : Bool) (s : SessionState) :
    Except PyError (SessionState × Browser) :=
  match s.browser with
  | some b => Except.ok (s, b)
  | Option.none =>
      if loopRunning then
        Except.error (PyError.runtimeError
          "Cannot use HTMLSession within an existing event loop. Use AsyncHTMLSession instead.")
      else
        let b : Browser := { id := s.launches, closed := false }
        Except.ok ({ browser := some b, launches := s.launches + 1 }, b)

/-- `HTMLSession.close`: if `_browser` exists, run `self._browser.close()`;
the attribute itself is never deleted.  (The `AsyncHTMLSession.close`
variant awaits the same call.) -/
def sessionClose (s : SessionState) : SessionState :=
  match s.browser with
  | some b => { s with browser := some { b with closed := true } }
  | Option.none => s

/-! ## Session construction (`BaseSession.__init__`, `mock_user_agent`) -/

/-- Python truthiness of an optional string argument. -/
def optStrTruthy : Option String → Bool
  | Option.none => false
  | some s => !s.isEmpty

/-- `mock_user_agent(style)`: `useragent[style]` for a truthy style other
than `"default"` (with `useragent` the lazily created `UserAgent()` table,
abstracted as `ua_table`), else the module default agent string. -/
def mock_user_agent (ua_table : String → String) (style : Option String) : String :=
  match style with
  | some s => if !s.isEmpty && s ≠ "default" then ua_table s else DEFAULT_USER_AGENT
  | Option.none => DEFAULT_USER_AGENT

/-- The User-Agent header logic of `BaseSession.__init__`: when
`mock_browser_style` is truthy the source executes
`self.headers["User-Agent"] = user_agent(mock_browser_style)`, calling the
`user_agent` parameter — which per the API is `None` or a string, never
callable — so the constructor raises `TypeError` before anything else.
Otherwise a truthy `user_agent` is installed as the header; else the header
is left untouched (`Option.none`). -/
def baseSessionInitUA (user_agent : Option String) (mock_browser_style : Option String) :
    Except PyError (Option String) :=
  if optStrTruthy mock_browser_style then
    match user_agent with
    | Option.none => Except.error (PyError.typeError "NoneType object is not callable")
    | some _ => Except.error (PyError.typeError "str object is not callable")
  else if optStrTruthy user_agent then
    Except.ok user_agent
  else
    Except.ok Option.none

/-! ## Next-page search (`HTML.next.get_next`, `BaseParser.find` with `containing`) -/

/-- Python substring membership `needle in hay`. -/
def strContains (hay needle : String) : Bool :=
  (List.range (hay.data.length + 1)).any
    (fun i => List.isPrefixOf needle.data (hay.data.drop i))

/-- Python's `str.lower` on one character (ASCII range, which covers the
next-page symbols and link texts involved). -/
def lowerChar (c : Char) : Char :=
  if 65 ≤ c.toNat ∧ c.toNat ≤ 90 then Char.ofNat (c.toNat + 32) else c

/-- Python's `str.lower`. -/
def strToLower (s : String) : String := String.mk (s.data.map lowerChar)

/-- An `<a>` element as the next-page search reads it: its containing text,
and its `href`, `rel` and `class` attributes (`rel` and `class` already
split into token lists by `Element.attrs`; a missing `href` is
`Option.none`, and `attrs.get("rel", [])` / `attrs.get("class", [])` give
`[]` for missing ones). -/
structure Anchor where
  fullText : String
  href : Option String
  rel : List String
  classes : List String
  deriving DecidableEq, Repr

/-- `self.find("a", containing=next_symbol)`: keep, in discovery order, the
anchors whose lowercased full text contains some lowercased symbol, then
reverse the list. -/
def nextCandidates (anchors : List Anchor) (next_symbol : List String) : List Anchor :=
  (anchors.filter
    (fun a => next_symbol.any
      (fun c => strContains (strToLower a.fullText) (strToLower c)))).reverse

/-- The body of the candidate loop in `get_next`, for one candidate: when
`attrs.get("href")` is truthy, return its href if its `rel` tokens contain
`"next"`, else if some class token contains `"next"`, else if the href
contains `"page"`; otherwise fall through to the next candidate. -/
def candidateMatch (a : Anchor) : Option String :=
  match a.href with
  | Option.none => Option.none
  | some h =>
      if h.isEmpty then Option.none
      else if a.rel.contains "next" then some h
      else if a.classes.any (fun c => strContains c "next") then some h
      else if strContains h "page" then some h
      else Option.none

/-- The candidate loop of `get_next`: first candidate with a match wins. -/
def scanCandidates : List Anchor → Option String
  | [] => Option.none
  | a :: rest =>
      match candidateMatch a with
      | some h => some h
      | Option.none => scanCandidates rest

/-- `get_next()` inside `HTML.next`: scan the candidates; when no candidate
matched, resort to `candidates[-1].attrs["href"]`, where `IndexError` (no
candidates) is caught and yields `None`, but a missing `href` on the last
candidate raises `KeyError` (uncaught). -/
def get_next (cands : List Anchor) : Except PyError (Option String) :=
  match scanCandidates cands with
  | some h => Except.ok (some h)
  | Option.none =>
      match cands.getLast? with
      | Option.none => Except.ok Option.none
      | some a =>
          match a.href with
          | some h => Except.ok (some h)
          | Option.none => Except.error (PyError.keyError "href")

/-- Modelled from the claim's wording (for comparison with `get_next`): a
global priority-tier choice — first any candidate whose `rel` tokens contain
`"next"`, else any candidate with a class token containing `"next"`, else
any candidate whose href contains `"page"`, else the last candidate. -/
def get_next_spec (cands : List Anchor) : Option String :=
  match cands.find? (fun a => a.rel.contains "next") with
  | some a => a.href
  | Option.none =>
      match cands.find? (fun a => a.classes.any (fun c => strContains c "next")) with
      | some a => a.href
      | Option.none =>
          match cands.find? (fun a =>
              match a.href with
              | some h => strContains h "page"
              | Option.none => false) with
          | some a => a.href
          | Option.none => (cands.getLast?).bind (fun a => a.href)

/-! ## Auxiliary notions and concrete instances used by the theorems -/

/-- Whether one attempt outcome yields truthy content: a timeout yields no
content at all, a successful capture yields truthy content iff the captured
string is non-empty. -/
def producesTruthy : AttemptOutcome → Bool
  | .timeout => false
  | .success c _ => !c.isEmpty

/-- First-of on optional values: the left value when set, else the right. -/
def orD (a b : Option PyVal) : Option PyVal :=
  match a with
  | some v => some v
  | Option.none => b

/-- A realistic cookie whose `secure` attribute reads as `False` and whose
`url`, `sameSite`, `expires` and `httpOnly` attribute reads fail (as they do
on an `http.cookiejar.Cookie`, which has no such attributes). -/
def cookieSecureFalse : PyCookie :=
  { name := some (PyVal.str "sid"), value := some (PyVal.str "abc123"),
    url := Option.none, domain := some (PyVal.str "example.org"),
    path := some (PyVal.str "/"), sameSite := Option.none, expires := Option.none,
    httpOnly := Option.none, secure := some (PyVal.bool false) }

/-- A cookie none of whose attribute reads succeeds. -/
def badCookie : PyCookie :=
  { name := Option.none, value := Option.none, url := Option.none,
    domain := Option.none, path := Option.none, sameSite := Option.none,
    expires := Option.none, httpOnly := Option.none, secure := Option.none }

/-- A link whose `rel` tokens contain `"next"`. -/
def anchorRelNext : Anchor :=
  { fullText := "next item", href := some "/x", rel := ["next"], classes := [] }

/-- A link whose `href` contains the substring `"page"` (no `rel`/`class`). -/
def anchorPageHref : Anchor :=
  { fullText := "more next", href := some "/page/2", rel := [], classes := [] }

/-- A concrete document owned by session `0`. -/
def docW : Doc :=
  { url := "https://u.example/", html := "<p>old</p>", session := 0, page := Option.none }

/-- A concrete document whose URL is the placeholder default URL. -/
def docDefaultUrl : Doc :=
  { url := "https://example.org/", html := "<p>old</p>", session := 0, page := Option.none }

/-- A collaborator whose every attempt times out. -/
def timeoutOutcomes : Nat → AttemptOutcome := fun _ => AttemptOutcome.timeout

/-- A collaborator that times out twice and then succeeds on the third
attempt with content `"<p>hi</p>"` and script result `7`. -/
def successAt3 : Nat → AttemptOutcome := fun i =>
  if i < 2 then AttemptOutcome.timeout
  else AttemptOutcome.success "<p>hi</p>" (some (PyVal.int 7))

/-- The document/script-result pair produced by rendering `docW` under
`successAt3` with fresh session id `5`. -/
def renderedPair : Doc × Option PyVal :=
  ({ url := "https://u.example/", html := "<p>hi</p>", session := 5, page := Option.none },
   some (PyVal.int 7))

/-! ## Lemmas on dict assignment and lookup -/

theorem find?_map_set_eq (d : PyDict) (k : String) (v : PyVal) :
    List.find? (fun kv => kv.1 = k) (List.map (fun kv => if kv.1 = k then (k, v) else kv) d) =
      if List.any d (fun kv => kv.1 = k) then some (k, v) else Option.none := by
  induction d with
  | nil => simp
  | cons a d ih =>
    rw [List.map_cons, List.any_cons]
    by_cases h : a.1 = k
    · rw [if_pos h, List.find?_cons_of_pos _ (by simp)]
      simp [h]
    · rw [if_neg h, List.find?_cons_of_neg _ (by simpa using h), ih]
      have hd : decide (a.1 = k) = false := by simp [h]
      rw [hd, Bool.false_or]

theorem find?_append_singleton_ne (d : PyDict) (k k2 : String) (v : PyVal) (h : k ≠ k2) :
    List.find? (fun kv => kv.1 = k) (d ++ [(k2, v)]) = List.find? (fun kv => kv.1 = k) d := by
  rw [List.find?_append]
  have h2 : List.find? (fun kv => kv.1 = k) [(k2, v)] = Option.none := by
    simp [Ne.symm h]
  rw [h2]
  cases List.find? (fun kv => kv.1 = k) d <;> rfl

theorem find?_map_set_ne (d : PyDict) (k k2 : String) (v : PyVal) (h : k ≠ k2) :
    List.find? (fun kv => kv.1 = k) (List.map (fun kv => if kv.1 = k2 then (k2, v) else kv) d) =
      List.find? (fun kv => kv.1 = k) d := by
  induction d with
  | nil => rfl
  | cons a d ih =>
    rw [List.map_cons]
    by_cases ha : a.1 = k2
    · rw [if_pos ha, List.find?_cons_of_neg _ (by simp [Ne.symm h]),
        List.find?_cons_of_neg _ (by simp [ha, Ne.symm h]), ih]
    · rw [if_neg ha]
      by_cases hak : a.1 = k
      · rw [List.find?_cons_of_pos _ (by simpa using hak),
          List.find?_cons_of_pos _ (by simpa using hak)]
      · rw [List.find?_cons_of_neg _ (by simpa using hak),
          List.find?_cons_of_neg _ (by simpa using hak), ih]

theorem PyDict.lookup_set_self (d : PyDict) (k : String) (v : PyVal) :
    (d.set k v).lookup k = some v := by
  unfold PyDict.set PyDict.lookup
  by_cases h : List.any d (fun kv => kv.1 = k)
  · rw [if_pos h, find?_map_set_eq, if_pos h]
    rfl
  · rw [if_neg h]
    have hnone : List.find? (fun kv => kv.1 = k) d = Option.none := by
      rw [List.find?_eq_none]
      intro x hx hpx
      exact h (List.any_eq_true.mpr ⟨x, hx, hpx⟩)
    rw [List.find?_append, hnone]
    simp

theorem PyDict.lookup_set_ne (d : PyDict) (k k2 : String) (v : PyVal) (h : k ≠ k2) :
    (d.set k2 v).lookup k = d.lookup k := by
  unfold PyDict.set PyDict.lookup
  by_cases hmem : List.any d (fun kv => kv.1 = k2)
  · rw [if_pos hmem, find?_map_set_ne d k k2 v h]
  · rw [if_neg hmem, find?_append_singleton_ne d k k2 v h]

theorem PyDict.lookup_empty (k : String) : PyDict.empty.lookup k = Option.none := rfl

theorem orD_none_right (a : Option PyVal) : orD a Option.none = a := by
  cases a <;> rfl

theorem update_convertField_lookup_ne (d : PyDict) (c : PyCookie) (k k2 : String)
    (h : k ≠ k2) : (d.update (convertField c k2)).lookup k = d.lookup k := by
  unfold convertField
  cases hr : c.read k2 with
  | none => rfl
  | some v =>
    show (d.update (if v.truthy = true then some (k2, v) else Option.none)).lookup k =
      d.lookup k
    cases htv : v.truthy with
    | true => exact PyDict.lookup_set_ne d k k2 v h
    | false => rfl

theorem update_convertField_lookup_self (d : PyDict) (c : PyCookie) (k : String) :
    (d.update (convertField c k)).lookup k =
      orD ((c.read k).bind (fun v => if v.truthy then some v else Option.none))
        (d.lookup k) := by
  unfold convertField
  cases hr : c.read k with
  | none => rfl
  | some v =>
    show (d.update (if v.truthy = true then some (k, v) else Option.none)).lookup k =
      orD (if v.truthy = true then some v else Option.none) (d.lookup k)
    cases htv : v.truthy with
    | true =>
      show (d.set k v).lookup k = orD (some v) (d.lookup k)
      rw [PyDict.lookup_set_self]
      rfl
    | false => rfl

theorem lookup_foldl_convert_not_mem (c : PyCookie) (ks : List String) (d : PyDict)
    (key : String) (hks : key ∉ ks) :
    (List.foldl (fun d2 k => d2.update (convertField c k)) d ks).lookup key = d.lookup key := by
  induction ks generalizing d with
  | nil => rfl
  | cons k ks ih =>
    have hk : key ≠ k := fun hc => hks (hc ▸ List.mem_cons_self k ks)
    have hks2 : key ∉ ks := fun hc => hks (List.mem_cons_of_mem k hc)
    simp only [List.foldl_cons]
    rw [ih _ hks2, update_convertField_lookup_ne d c key k hk]

theorem lookup_foldl_convert_mem (c : PyCookie) (ks : List String) (d : PyDict)
    (key : String) (hnd : ks.Nodup) (hmem : key ∈ ks) :
    (List.foldl (fun d2 k => d2.update (convertField c k)) d ks).lookup key =
      orD ((c.read key).bind (fun v => if v.truthy then some v else Option.none))
        (d.lookup key) := by
  induction ks generalizing d with
  | nil => cases hmem
  | cons k ks ih =>
    simp only [List.foldl_cons]
    by_cases hk : key = k
    · subst hk
      have hks : key ∉ ks := (List.nodup_cons.mp hnd).1
      rw [lookup_foldl_convert_not_mem c ks _ key hks]
      exact update_convertField_lookup_self d c key
    · have hmem2 : key ∈ ks := by
        rcases List.mem_cons.mp hmem with h1 | h2
        · exact absurd h1 hk
        · exact h2
      rw [ih _ (List.nodup_cons.mp hnd).2 hmem2,
        update_convertField_lookup_ne d c key k hk]

/-! ## Claim C4: per-cookie field conversion -/

/-- Claim C4, counterexample: a cookie whose `secure` attribute is present
and reads as `False` loses that field entirely in the converted record —
`secure` is not carried losslessly, refuting the claim as stated. -/
theorem claim_C4_counterexample :
    cookieSecureFalse.secure = some (PyVal.bool false) ∧
    (convert_cookiejar_to_render cookieSecureFalse).lookup "secure" = Option.none := by
  constructor
  · rfl
  · rfl

/-- Claim C4, amended: for every cookie and every key, the converted record
carries the field exactly when the attribute read succeeds and its value is
truthy, and a carried field keeps its source value unchanged; falsy values
(`False`, `0`, `""`, `None`) and unreadable attributes are omitted. -/
theorem claim_C4_amended (c : PyCookie) (key : String) (hkey : key ∈ cookieKeys) :
    (convert_cookiejar_to_render c).lookup key =
      (c.read key).bind (fun v => if v.truthy then some v else Option.none) := by
  have hnd : cookieKeys.Nodup := by decide
  have h := lookup_foldl_convert_mem c cookieKeys PyDict.empty key hnd hkey
  rw [convert_cookiejar_to_render, h, PyDict.lookup_empty, orD_none_right]

/-- Claim C4, amended, witness at a concrete cookie and key. -/
theorem claim_C4_amended_witness :
    (convert_cookiejar_to_render cookieSecureFalse).lookup "domain" =
      (cookieSecureFalse.read "domain").bind
        (fun v => if v.truthy then some v else Option.none) :=
  claim_C4_amended cookieSecureFalse "domain" (by decide)

/-! ## Claim C5: whole-jar conversion -/

/-- Claim C5, counterexample: a cookie none of whose attribute reads
succeeds is not dropped — it still contributes a record (holding only the
document URL), so the output list has the same length as the jar, never a
shorter one, refuting the claim as stated. -/
theorem claim_C5_counterexample :
    convert_cookiesjar_to_render "https://a.example/" [badCookie] =
      [[("url", PyVal.str "https://a.example/")]] ∧
    (convert_cookiesjar_to_render "https://a.example/" [badCookie]).length =
      ([badCookie] : List PyCookie).length := by
  constructor
  · rfl
  · rfl

/-- Claim C5, amended: jar conversion never raises (failed attribute reads
are absorbed field by field inside `__convert`), and every cookie of the
jar — malformed or not — contributes exactly one record to the output, so
the output length always equals the jar length; each record carries the
document URL under the key `"url"`. -/
theorem claim_C5_amended (url : String) (jar : List PyCookie) :
    (convert_cookiesjar_to_render url jar).length = jar.length ∧
    (convert_cookiesjar_to_render url jar).all
      (fun d => decide (d.lookup "url" = some (PyVal.str url))) = true := by
  constructor
  · rw [convert_cookiesjar_to_render, List.length_map]
  · rw [List.all_eq_true]
    intro d hd
    rcases List.mem_map.mp hd with ⟨c, _, rfl⟩
    rw [decide_eq_true_eq]
    exact PyDict.lookup_set_self (convert_cookiejar_to_render c) "url" (PyVal.str url)

/-! ## Lemmas on the render retry loop -/

theorem render_loop_of_truthy (url html_ : String) (reload keep_page : Bool)
    (cookies : List PyDict) (outcomes : Nat → AttemptOutcome) (n i : Nat) (st : LoopState)
    (h : contentTruthy st.content = true) :
    render_loop url html_ reload keep_page cookies outcomes n i st = st := by
  cases n with
  | zero => rfl
  | succ n => simp [render_loop, h]

theorem render_loop_fail_step (url html_ : String) (reload keep_page : Bool)
    (cookies : List PyDict) (outcomes : Nat → AttemptOutcome) (n i : Nat) (st : LoopState)
    (hc : contentTruthy st.content = false) :
    render_loop url html_ reload keep_page cookies outcomes (n + 1) i st =
      render_loop url html_ reload keep_page cookies outcomes n (i + 1)
        (st.step (async_render url html_ reload keep_page cookies (outcomes i))) := by
  simp only [render_loop]
  rw [if_neg (by simp [hc])]

theorem step_timeout (st : LoopState) (url html_ : String) (reload keep_page : Bool)
    (cookies : List PyDict) :
    st.step (async_render url html_ reload keep_page cookies AttemptOutcome.timeout) =
      { st with
        attempts := st.attempts + 1, closed := st.closed + 1,
        navs := st.navs ++ [if reload then NavTarget.network url else NavTarget.dataUrl html_],
        cookieTraces := st.cookieTraces ++ [cookies.filter (fun c => c.truthy)] } := rfl

theorem step_success (st : LoopState) (url html_ : String) (reload keep_page : Bool)
    (cookies : List PyDict) (c : String) (res : Option PyVal) :
    st.step (async_render url html_ reload keep_page cookies (AttemptOutcome.success c res)) =
      { content := some c, result := res,
        page := if keep_page then some () else Option.none,
        attempts := st.attempts + 1,
        closed := st.closed + (if keep_page then 0 else 1),
        navs := st.navs ++ [if reload then NavTarget.network url else NavTarget.dataUrl html_],
        cookieTraces := st.cookieTraces ++ [cookies.filter (fun c2 => c2.truthy)] } := by
  cases keep_page <;> rfl

theorem step_not_truthy (st : LoopState) (url html_ : String) (reload keep_page : Bool)
    (cookies : List PyDict) (o : AttemptOutcome)
    (ho : producesTruthy o = false) (hc : contentTruthy st.content = false) :
    contentTruthy (st.step (async_render url html_ reload keep_page cookies o)).content = false ∧
    (st.step (async_render url html_ reload keep_page cookies o)).attempts = st.attempts + 1 := by
  cases o with
  | timeout => exact ⟨hc, rfl⟩
  | success c0 r0 => cases keep_page <;> exact ⟨ho, rfl⟩

theorem render_loop_all_timeout (url html_ : String) (reload keep_page : Bool)
    (cookies : List PyDict) (outcomes : Nat → AttemptOutcome) :
    ∀ (n i : Nat) (st : LoopState), contentTruthy st.content = false →
      (∀ j, j < n → outcomes (i + j) = AttemptOutcome.timeout) →
      (render_loop url html_ reload keep_page cookies outcomes n i st).content = st.content ∧
      (render_loop url html_ reload keep_page cookies outcomes n i st).attempts =
        st.attempts + n ∧
      (render_loop url html_ reload keep_page cookies outcomes n i st).closed =
        st.closed + n := by
  intro n
  induction n with
  | zero => intro i st hc hto; exact ⟨rfl, rfl, rfl⟩
  | succ n ih =>
    intro i st hc hto
    have h0 : outcomes i = AttemptOutcome.timeout := by
      have := hto 0 (Nat.succ_pos n)
      simpa using this
    rw [render_loop_fail_step url html_ reload keep_page cookies outcomes n i st hc,
      h0, step_timeout]
    obtain ⟨h1, h2, h3⟩ := ih (i + 1)
      { st with
        attempts := st.attempts + 1, closed := st.closed + 1,
        navs := st.navs ++ [if reload then NavTarget.network url else NavTarget.dataUrl html_],
        cookieTraces := st.cookieTraces ++ [cookies.filter (fun c => c.truthy)] }
      hc
      (fun j hj => by
        have := hto (j + 1) (Nat.succ_lt_succ hj)
        rw [show i + 1 + j = i + (j + 1) by omega]
        exact this)
    refine ⟨h1, ?_, ?_⟩
    · rw [h2]
      show st.attempts + 1 + n = st.attempts + (n + 1)
      omega
    · rw [h3]
      show st.closed + 1 + n = st.closed + (n + 1)
      omega

theorem render_loop_success_at (url html_ : String) (reload keep_page : Bool)
    (cookies : List PyDict) (outcomes : Nat → AttemptOutcome) (c : String)
    (res : Option PyVal) :
    ∀ (m n i : Nat) (st : LoopState), m < n → contentTruthy st.content = false →
      (∀ j, j < m → producesTruthy (outcomes (i + j)) = false) →
      outcomes (i + m) = AttemptOutcome.success c res → c.isEmpty = false →
      (render_loop url html_ reload keep_page cookies outcomes n i st).attempts =
        st.attempts + m + 1 ∧
      (render_loop url html_ reload keep_page cookies outcomes n i st).content = some c ∧
      (render_loop url html_ reload keep_page cookies outcomes n i st).result = res ∧
      (render_loop url html_ reload keep_page cookies outcomes n i st).page =
        (if keep_page then some () else Option.none) := by
  intro m
  induction m with
  | zero =>
    intro n i st hmn hc hfail hsucc hce
    obtain ⟨n, rfl⟩ : ∃ n2, n = n2 + 1 := ⟨n - 1, by omega⟩
    rw [render_loop_fail_step url html_ reload keep_page cookies outcomes n i st hc]
    have h0 : outcomes i = AttemptOutcome.success c res := by simpa using hsucc
    rw [h0, step_success]
    rw [render_loop_of_truthy _ _ _ _ _ _ _ _ _ (by simpa [contentTruthy] using hce)]
    exact ⟨rfl, rfl, rfl, rfl⟩
  | succ m ih =>
    intro n i st hmn hc hfail hsucc hce
    obtain ⟨n, rfl⟩ : ∃ n2, n = n2 + 1 := ⟨n - 1, by omega⟩
    rw [render_loop_fail_step url html_ reload keep_page cookies outcomes n i st hc]
    have hf0 : producesTruthy (outcomes i) = false := by
      have := hfail 0 (Nat.succ_pos m)
      simpa using this
    obtain ⟨hc2, hatt2⟩ := step_not_truthy st url html_ reload keep_page cookies
      (outcomes i) hf0 hc
    obtain ⟨h1, h2, h3, h4⟩ := ih n (i + 1)
      (st.step (async_render url html_ reload keep_page cookies (outcomes i)))
      (by omega) hc2
      (fun j hj => by
        have := hfail (j + 1) (Nat.succ_lt_succ hj)
        rw [show i + 1 + j = i + (j + 1) by omega]
        exact this)
      (by rw [show i + 1 + m = i + (m + 1) by omega]; exact hsucc)
      hce
    refine ⟨?_, h2, h3, h4⟩
    rw [h1, hatt2]
    omega

theorem render_loop_navs_no_reload (url html_ : String) (keep_page : Bool)
    (cookies : List PyDict) (outcomes : Nat → AttemptOutcome) :
    ∀ (n i : Nat) (st : LoopState),
      st.navs.all (fun t => decide (t = NavTarget.dataUrl html_)) = true →
      (render_loop url html_ false keep_page cookies outcomes n i st).navs.all
        (fun t => decide (t = NavTarget.dataUrl html_)) = true := by
  intro n
  induction n with
  | zero => intro i st h; exact h
  | succ n ih =>
    intro i st h
    by_cases hc : contentTruthy st.content = true
    · rw [render_loop_of_truthy _ _ _ _ _ _ _ _ _ hc]; exact h
    · rw [render_loop_fail_step url html_ false keep_page cookies outcomes n i st
        (by simpa using hc)]
      apply ih
      cases ho : outcomes i with
      | timeout => rw [step_timeout]; simp [h]
      | success c0 r0 => rw [step_success]; simp [h]

theorem render_trace_eq (doc : Doc) (retries : Nat) (reload keep_page : Bool)
    (cookies : List PyDict) (scs : Bool) (jar : List PyCookie)
    (outcomes : Nat → AttemptOutcome) (fresh : Nat) :
    (render doc retries reload keep_page cookies scs jar outcomes fresh).trace =
      render_loop doc.url doc.html (if doc.url = DEFAULT_URL then false else reload) keep_page
        (if scs then convert_cookiesjar_to_render doc.url jar else cookies)
        outcomes retries 0 LoopState.init := rfl

theorem render_outcome_eq (doc : Doc) (retries : Nat) (reload keep_page : Bool)
    (cookies : List PyDict) (scs : Bool) (jar : List PyCookie)
    (outcomes : Nat → AttemptOutcome) (fresh : Nat) :
    (render doc retries reload keep_page cookies scs jar outcomes fresh).outcome =
      (if contentTruthy
          (render doc retries reload keep_page cookies scs jar outcomes fresh).trace.content then
        Except.ok
          ({ url := doc.url,
             html := (render doc retries reload keep_page cookies scs jar
               outcomes fresh).trace.content.getD "",
             session := fresh,
             page := (render doc retries reload keep_page cookies scs jar
               outcomes fresh).trace.page },
           (render doc retries reload keep_page cookies scs jar outcomes fresh).trace.result)
      else
        Except.error
          (RenderError.maxRetries "Unable to render the page. Try increasing timeout")) := rfl

theorem arender_eq_render : arender = render := rfl

/-! ## Claim C1: exhausted retries -/

/-- Claim C1: for `retries = N ≥ 1` and a collaborator whose every attempt
times out (the soft failure that closes the attempt's page), both `render`
and `arender` perform exactly `N` attempts, close `N` pages, and raise
`MaxRetries` with the message instructing to increase the timeout — the
error is returned to the caller, never absorbed. -/
theorem claim_C1 (doc : Doc) (N : Nat) (reload keep_page : Bool) (cookies : List PyDict)
    (scs : Bool) (jar : List PyCookie) (outcomes : Nat → AttemptOutcome) (fresh : Nat)
    (hN : 1 ≤ N) (hto : ∀ i, i < N → outcomes i = AttemptOutcome.timeout) :
    ((render doc N reload keep_page cookies scs jar outcomes fresh).trace.attempts = N ∧
     (render doc N reload keep_page cookies scs jar outcomes fresh).trace.closed = N ∧
     (render doc N reload keep_page cookies scs jar outcomes fresh).outcome =
       Except.error (RenderError.maxRetries
         "Unable to render the page. Try increasing timeout")) ∧
    ((arender doc N reload keep_page cookies scs jar outcomes fresh).trace.attempts = N ∧
     (arender doc N reload keep_page cookies scs jar outcomes fresh).trace.closed = N ∧
     (arender doc N reload keep_page cookies scs jar outcomes fresh).outcome =
       Except.error (RenderError.maxRetries
         "Unable to render the page. Try increasing timeout")) := by
  obtain ⟨h1, h2, h3⟩ := render_loop_all_timeout doc.url doc.html
    (if doc.url = DEFAULT_URL then false else reload) keep_page
    (if scs then convert_cookiesjar_to_render doc.url jar else cookies)
    outcomes N 0 LoopState.init rfl (fun j hj => by simpa using hto j hj)
  have hattempts :
      (render doc N reload keep_page cookies scs jar outcomes fresh).trace.attempts = N := by
    rw [render_trace_eq, h2]
    show 0 + N = N
    omega
  have hclosed :
      (render doc N reload keep_page cookies scs jar outcomes fresh).trace.closed = N := by
    rw [render_trace_eq, h3]
    show 0 + N = N
    omega
  have hfalse :
      contentTruthy
        (render doc N reload keep_page cookies scs jar outcomes fresh).trace.content = false := by
    rw [render_trace_eq, h1]
    rfl
  have houtcome :
      (render doc N reload keep_page cookies scs jar outcomes fresh).outcome =
        Except.error (RenderError.maxRetries
          "Unable to render the page. Try increasing timeout") := by
    rw [render_outcome_eq, if_neg (by simp [hfalse])]
  refine ⟨⟨hattempts, hclosed, houtcome⟩, ?_⟩
  rw [arender_eq_render]
  exact ⟨hattempts, hclosed, houtcome⟩

/-- Claim C1, witness: three timeouts with `retries = 3` raise `MaxRetries`. -/
theorem claim_C1_witness :
    (render docW 3 true false [] false [] timeoutOutcomes 5).outcome =
      Except.error (RenderError.maxRetries
        "Unable to render the page. Try increasing timeout") :=
  (claim_C1 docW 3 true false [] false [] timeoutOutcomes 5 (by omega)
    (fun _ _ => rfl)).1.2.2

/-! ## Claim C2: success at attempt k -/

/-- Claim C2: when attempt `k ≤ N` is the first to return non-empty
content, `render` performs exactly `k` attempts, installs attempt `k`'s
content on the document while preserving its URL, and returns attempt `k`'s
script result. -/
theorem claim_C2 (doc : Doc) (N k : Nat) (reload keep_page : Bool) (cookies : List PyDict)
    (scs : Bool) (jar : List PyCookie) (outcomes : Nat → AttemptOutcome) (fresh : Nat)
    (c : String) (res : Option PyVal)
    (hk : 1 ≤ k) (hkN : k ≤ N)
    (hfail : ∀ j, j < k - 1 → producesTruthy (outcomes j) = false)
    (hsucc : outcomes (k - 1) = AttemptOutcome.success c res) (hcne : c ≠ "") :
    (render doc N reload keep_page cookies scs jar outcomes fresh).trace.attempts = k ∧
    (render doc N reload keep_page cookies scs jar outcomes fresh).outcome =
      Except.ok ({ url := doc.url, html := c, session := fresh,
                   page := if keep_page then some () else Option.none }, res) := by
  have hce : c.isEmpty = false := by
    cases h : c.isEmpty with
    | false => rfl
    | true => exact absurd ((String.isEmpty_iff c).mp h) hcne
  obtain ⟨h1, h2, h3, h4⟩ := render_loop_success_at doc.url doc.html
    (if doc.url = DEFAULT_URL then false else reload) keep_page
    (if scs then convert_cookiesjar_to_render doc.url jar else cookies)
    outcomes c res (k - 1) N 0 LoopState.init (by omega) rfl
    (fun j hj => by simpa using hfail j hj) (by simpa using hsucc) hce
  constructor
  · rw [render_trace_eq, h1]
    show 0 + (k - 1) + 1 = k
    omega
  · have htr :
        contentTruthy
          (render doc N reload keep_page cookies scs jar outcomes fresh).trace.content = true := by
      rw [render_trace_eq, h2]
      show (!c.isEmpty) = true
      rw [hce]
      rfl
    rw [render_outcome_eq, if_pos htr, render_trace_eq, h2, h3, h4]
    rfl

/-- Claim C2, witness: two timeouts followed by a successful third attempt
with `retries = 5` yield three attempts and install that attempt's
content. -/
theorem claim_C2_witness :
    (render docW 5 true false [] false [] successAt3 5).outcome =
      Except.ok ({ url := "https://u.example/", html := "<p>hi</p>", session := 5,
                   page := Option.none }, some (PyVal.int 7)) :=
  (claim_C2 docW 5 3 true false [] false [] successAt3 5 "<p>hi</p>" (some (PyVal.int 7))
    (by omega) (by omega)
    (fun j hj => by
      have hj2 : j = 0 ∨ j = 1 := by omega
      rcases hj2 with rfl | rfl <;> rfl)
    rfl (by decide)).2

/-! ## Claim C6: placeholder URL forces in-memory rendering -/

/-- Claim C6: rendering a document whose URL is the placeholder default URL
forces `reload = False` whatever the caller passed, so every navigation of
every attempt targets a data URL holding the in-memory HTML — never a
network navigation to the live URL. -/
theorem claim_C6 (doc : Doc) (retries : Nat) (reload keep_page : Bool)
    (cookies : List PyDict) (scs : Bool) (jar : List PyCookie)
    (outcomes : Nat → AttemptOutcome) (fresh : Nat) (hurl : doc.url = DEFAULT_URL) :
    (render doc retries reload keep_page cookies scs jar outcomes fresh).trace.navs.all
      (fun t => decide (t = NavTarget.dataUrl doc.html)) = true := by
  rw [render_trace_eq, if_pos hurl]
  exact render_loop_navs_no_reload doc.url doc.html keep_page
    (if scs then convert_cookiesjar_to_render doc.url jar else cookies)
    outcomes retries 0 LoopState.init rfl

/-- Claim C6, witness: with the placeholder-URL document and `reload = True`
requested, both performed navigations are data-URL loads. -/
theorem claim_C6_witness :
    (render docDefaultUrl 2 true false [] false [] timeoutOutcomes 1).trace.navs.all
      (fun t => decide (t = NavTarget.dataUrl docDefaultUrl.html)) = true :=
  claim_C6 docDefaultUrl 2 true false [] false [] timeoutOutcomes 1 rfl

/-! ## Claim C10: render installs a fresh session on the document -/

/-- Claim C10: whenever `render` succeeds, the wholesale attribute copy
from the freshly parsed document installs the newly constructed default
session on the caller's document; since that fresh session is a new object,
the document's session no longer refers to the one it was created with. -/
theorem claim_C10 (doc : Doc) (retries : Nat) (reload keep_page : Bool)
    (cookies : List PyDict) (scs : Bool) (jar : List PyCookie)
    (outcomes : Nat → AttemptOutcome) (fresh : Nat) (p : Doc × Option PyVal)
    (hok : (render doc retries reload keep_page cookies scs jar outcomes fresh).outcome =
      Except.ok p)
    (hne : fresh ≠ doc.session) :
    p.1.session = fresh ∧ p.1.session ≠ doc.session := by
  have hses : p.1.session = fresh := by
    rw [render_outcome_eq] at hok
    by_cases hc :
        contentTruthy
          (render doc retries reload keep_page cookies scs jar outcomes fresh).trace.content = true
    · rw [if_pos hc] at hok
      rcases Except.ok.inj hok with rfl
      rfl
    · rw [if_neg hc] at hok
      exact Except.noConfusion hok
  exact ⟨hses, by rw [hses]; exact hne⟩

/-- Claim C10, witness: after the concrete successful render of `docW`
(owned by session `0`, fresh session `5`), the document's session is the
fresh one and differs from the original. -/
theorem claim_C10_witness :
    renderedPair.1.session = 5 ∧ renderedPair.1.session ≠ docW.session :=
  claim_C10 docW 5 true false [] false [] successAt3 5 renderedPair rfl (by decide)

/-! ## Claim C7: session close and the memoized browser -/

/-- Claim C7, counterexample: after `close()` on a session that launched a
browser, the memoized `_browser` attribute is still set, so a subsequent
browser access returns the same, already closed, browser — `launches` stays
at `1` and no fresh browser is started, refuting the claim as stated. -/
theorem claim_C7_counterexample :
    sessionClose { browser := some { id := 0, closed := false }, launches := 1 } =
      { browser := some { id := 0, closed := true }, launches := 1 } ∧
    getBrowser false { browser := some { id := 0, closed := true }, launches := 1 } =
      Except.ok ({ browser := some { id := 0, closed := true }, launches := 1 },
        { id := 0, closed := true }) := by
  constructor
  · rfl
  · rfl

/-- Claim C7, amended: `close()` on a session that launched a browser
closes the browser but retains the memoized handle, so a subsequent browser
access returns that same closed browser without launching a new one; and
`close()` on a session that never launched a browser leaves the browser
state untouched. -/
theorem claim_C7_amended (s : SessionState) (loopRunning : Bool) :
    (s.browser = Option.none → sessionClose s = s) ∧
    (∀ b, s.browser = some b →
      sessionClose s = { s with browser := some { b with closed := true } } ∧
      getBrowser loopRunning (sessionClose s) =
        Except.ok (sessionClose s, { b with closed := true }) ∧
      (sessionClose s).launches = s.launches) := by
  constructor
  · intro h
    unfold sessionClose
    rw [h]
  · intro b hb
    unfold sessionClose
    rw [hb]
    exact ⟨rfl, rfl, rfl⟩

/-- Claim C7, amended, witness at a concrete session holding one launched
browser. -/
theorem claim_C7_amended_witness :
    getBrowser false (sessionClose { browser := some { id := 0, closed := false }, launches := 1 }) =
      Except.ok (sessionClose { browser := some { id := 0, closed := false }, launches := 1 },
        { id := 0, closed := true }) :=
  ((claim_C7_amended { browser := some { id := 0, closed := false }, launches := 1 } false).2
    { id := 0, closed := false } rfl).2.1

/-! ## Claim C8: synchronous browser access inside a running loop -/

/-- Claim C8: accessing the synchronous browser property on a session with
no memoized browser while the thread's event loop is already running fails
immediately with the descriptive `RuntimeError` — no browser is launched
and no deadlock-prone wait is entered. -/
theorem claim_C8 (s : SessionState) (h : s.browser = Option.none) :
    getBrowser true s =
      Except.error (PyError.runtimeError
        "Cannot use HTMLSession within an existing event loop. Use AsyncHTMLSession instead.") := by
  unfold getBrowser
  rw [h]
  rfl

/-- Claim C8, witness at a freshly constructed session. -/
theorem claim_C8_witness :
    getBrowser true { browser := Option.none, launches := 0 } =
      Except.error (PyError.runtimeError
        "Cannot use HTMLSession within an existing event loop. Use AsyncHTMLSession instead.") :=
  claim_C8 { browser := Option.none, launches := 0 } rfl

/-! ## Claim C9: session construction with a mock-browser style -/

/-- Claim C9: the claim says construction with a mock-style selection and
no user-agent override succeeds and installs the style's agent string; the
code instead executes `self.headers["User-Agent"] =
user_agent(mock_browser_style)`, calling the `user_agent` parameter — which
is `None` here — so construction raises `TypeError` for every truthy style,
while the module-level `mock_user_agent` (the evident intent, and otherwise
unused) would have produced the agent string. -/
theorem claim_C9_code_bug :
    baseSessionInitUA Option.none (some "chrome") =
      Except.error (PyError.typeError "NoneType object is not callable") ∧
    baseSessionInitUA Option.none (some "default") =
      Except.error (PyError.typeError "NoneType object is not callable") ∧
    mock_user_agent (fun s => String.append "AGENT for " s) (some "chrome") =
      "AGENT for chrome" ∧
    mock_user_agent (fun s => String.append "AGENT for " s) (some "default") =
      DEFAULT_USER_AGENT := by
  refine ⟨rfl, rfl, ?_, rfl⟩
  rfl

/-! ## Claim C3: the next-page search -/

theorem scanCandidates_append_none (pre rest : List Anchor)
    (h : ∀ b ∈ pre, candidateMatch b = Option.none) :
    scanCandidates (pre ++ rest) = scanCandidates rest := by
  induction pre with
  | nil => rfl
  | cons a pre ih =>
    have ha : candidateMatch a = Option.none := h a (List.mem_cons_self a pre)
    rw [List.cons_append]
    simp only [scanCandidates, ha]
    exact ih (fun b hb => h b (List.mem_cons_of_mem a hb))

theorem scanCandidates_none_of_all (l : List Anchor)
    (h : ∀ b ∈ l, candidateMatch b = Option.none) :
    scanCandidates l = Option.none := by
  induction l with
  | nil => rfl
  | cons a l ih =>
    have ha : candidateMatch a = Option.none := h a (List.mem_cons_self a l)
    simp only [scanCandidates, ha]
    exact ih (fun b hb => h b (List.mem_cons_of_mem a hb))

/-- Claim C3, counterexample: candidates are not ranked by global priority
tiers.  With two matching links — one whose `href` contains `"page"`, one
tagged `rel="next"` — discovered in that reverse order, the code returns
the page-href candidate, while the claimed rel-over-all preference (embodied
by `get_next_spec`) picks the rel-tagged one. -/
theorem claim_C3_counterexample :
    get_next (nextCandidates [anchorRelNext, anchorPageHref] ["next"]) =
      Except.ok (some "/page/2") ∧
    get_next_spec (nextCandidates [anchorRelNext, anchorPageHref] ["next"]) =
      some "/x" ∧
    anchorRelNext.rel.contains "next" = true ∧
    ("/page/2" : String) ≠ "/x" := by
  refine ⟨rfl, rfl, rfl, ?_⟩
  decide

/-- Claim C3, amended: the search collects candidates in reverse of
discovery order and scans them one by one, returning the href of the first
candidate with a truthy href that satisfies any of the three rules (rel
tokens containing `"next"`, a class token containing `"next"`, or an href
containing `"page"`) — checked per candidate, not as global tiers; if no
candidate matches, it falls back to the last collected candidate's href;
with no candidates at all, it reports no next page without error. -/
theorem claim_C3_amended (anchors : List Anchor) (syms : List String) :
    (nextCandidates anchors syms = [] →
      get_next (nextCandidates anchors syms) = Except.ok Option.none) ∧
    (∀ pre a post h, nextCandidates anchors syms = pre ++ a :: post →
      (∀ b ∈ pre, candidateMatch b = Option.none) → candidateMatch a = some h →
      get_next (nextCandidates anchors syms) = Except.ok (some h)) ∧
    ((∀ b ∈ nextCandidates anchors syms, candidateMatch b = Option.none) →
      ∀ a h, (nextCandidates anchors syms).getLast? = some a → a.href = some h →
      get_next (nextCandidates anchors syms) = Except.ok (some h)) := by
  refine ⟨?_, ?_, ?_⟩
  · intro h
    rw [h]
    rfl
  · intro pre a post h hcands hpre hmatch
    rw [hcands]
    unfold get_next
    rw [scanCandidates_append_none pre (a :: post) hpre]
    simp only [scanCandidates, hmatch]
  · intro hall a h hlast hhref
    unfold get_next
    rw [scanCandidates_none_of_all _ hall, hlast]
    show (match a.href with
      | some h2 => Except.ok (some h2)
      | Option.none => Except.error (PyError.keyError "href")) = Except.ok (some h)
    rw [hhref]

/-- Claim C3, amended, witness: a single candidate whose href contains
`"page"` is returned. -/
theorem claim_C3_amended_witness :
    get_next (nextCandidates [anchorPageHref] ["next"]) = Except.ok (some "/page/2") :=
  (claim_C3_amended [anchorPageHref] ["next"]).2.1 [] anchorPageHref [] "/page/2"
    rfl (fun b hb => absurd hb (List.not_mem_nil b)) rfl

end RequestsHtml2
